import Mathlib

/-
Verification development for the LexDanNet reconciliation tool.

Shallow embedding of the core data model and operations:
  * the dump parser post-extraction logic (`extract_forms`,
    `extract_part_of_speech` from `src/models/__init__.py`; the call to
    `re.findall` on the fixed pattern is treated as an external collaborator,
    so each function takes the list of `(id, value)` capture pairs that
    `re.findall` returned for its payload, wrapped in `Option` to model the
    `None`/missing-payload guards `check_unzipped_data` and the
    `pos_xml is None` check),
  * the lexical index construction (`create_dataframes_and_export_csv`:
    the pandas inner join on `id` plus the `pos_id` column, and
    `check_duplicates` over the `id` column; `pandas.Series.duplicated`
    marks every occurrence that has an earlier equal element),
  * the per-lexeme matcher state machine from `src/models/lexeme.py`
    (`do_matching`, `upload_missing_in_statement`, `iterate_matches`,
    `handle_no_senses`, `make_sure_we_have_danish_glosses_for_all_senses`,
    `match_row`, `upload_match`, and the `glosses` property).

Console prompts are modelled by oracles: `oracle : Nat → Bool` gives the
answer to the n-th `match_approved` yes/no prompt, and
`refetch : Nat → List Sense` gives the sense list obtained by the n-th
re-fetch of the lexeme inside the gloss-completeness gate.  Observable
actions (claim writes, prompts, diagnostics) are recorded as `Event`s.
-/

set_option autoImplicit false

/-- A form entry extracted from the words payload (`Form` in the source):
`form` is the lexical form string, `id` the dump word identifier. -/
structure Form where
  form : String
  id : String
deriving DecidableEq, Repr

/-- A part-of-speech entry extracted from the part-of-speech payload
(`PartOfSpeech` in the source). -/
structure PartOfSpeech where
  pos : String
  id : String
deriving DecidableEq, Repr

/-- One row of the joined dataframe built by
`create_dataframes_and_export_csv`: columns `id`, `pos`, `form`, `pos_id`.
The `pos_id` column is `None` (here `Option.none`) for unmapped labels. -/
structure IndexRow where
  id : String
  pos : String
  form : String
  pos_id : Option String
deriving DecidableEq, Repr

/-- One sense of a knowledge-base lexeme; `glossDa` models
`sense.glosses.get(language="da")`, `none` when the Danish gloss is absent. -/
structure Sense where
  glossDa : Option String
deriving DecidableEq, Repr

/-- The candidate data the matcher reads after `prepare`: the Danish lemma
(`self.lemma`; named `lemma_da` here because `lemma` is a Lean keyword), the
lexical category QID (`str(self.lexical_category_qid)`), its English label,
and the sense list. -/
structure Lexeme where
  lemma_da : String
  lexical_category_qid : String
  lexical_category_label : String
  senses : List Sense
deriving DecidableEq, Repr

/-- Observable actions of the matcher: claim writes, prompts and
diagnostics, in the order the source emits them. -/
inductive Event where
  /-- `upload_missing_in_statement`: an `Item` claim write with property,
  value and edit summary. -/
  | uploadedItem (prop value summary : String)
  /-- `upload_match`: an `ExternalID` claim write with property, value and
  edit summary. -/
  | uploadedExternalId (prop value summary : String)
  /-- `match_row` printed `Match found! ...` and put the dump id of the row to the
  `match_approved` yes/no prompt. -/
  | offered (dannetId : String)
  /-- `match_row` printed `Match rejected` after a `No` answer. -/
  | rejected
  /-- `match_row` logged the category-mismatch diagnostic carrying the lemma,
  the dump pos label and the knowledge-base category label. -/
  | mismatchDiag (lemmaDa dannetPos categoryLabel : String)
  /-- `match_row` skipped the row because a DanNet id was already uploaded
  for this lexeme. -/
  | guardSkip
  /-- `handle_no_senses` printed the no-senses notice and set `skip`. -/
  | noSensesSkip
  /-- `ask_user_to_add_glosses` prompted for manual gloss entry inside the
  gloss-completeness gate. -/
  | glossPrompt
deriving DecidableEq, Repr

/-- The matcher state threaded through row iteration:
`already_matched_and_uploaded` is the upload guard from the `Lexeme` model,
`prompts` counts the `match_approved` prompts consumed so far (it indexes
the approval oracle). -/
structure MState where
  already_matched_and_uploaded : Bool
  prompts : Nat
deriving DecidableEq, Repr

/-- Embeds `LexDanNet.extract_forms`: `check_unzipped_data` raises when the
payload is missing; with the payload present, a zero-match `re.findall`
result raises `No matches found`, otherwise each `(form_id, form)` pair
becomes a `Form` and an empty result list raises `Found no forms`. -/
def extract_forms (forms_xml : Option (List (String × String))) :
    Except String (List Form) :=
  match forms_xml with
  | none => .error "No unzipped data"
  | some ms =>
    if ms.isEmpty then .error "No matches found"
    else
      let forms_list := ms.map (fun m => Form.mk m.2 m.1)
      if forms_list.isEmpty then .error "Found no forms"
      else .ok forms_list

/-- Embeds `LexDanNet.extract_part_of_speech`: raises only when `pos_xml` is
`None`; otherwise each `(word_id, pos)` pair becomes a `PartOfSpeech` with
the label stripped (`String.trim` models Python `str.strip`), with no guard
against a zero-match result. -/
def extract_part_of_speech (pos_xml : Option (List (String × String))) :
    Except String (List PartOfSpeech) :=
  match pos_xml with
  | none => .error "pos_xml has no data."
  | some ms => .ok (ms.map (fun m => PartOfSpeech.mk m.2.trim m.1))

/-- Models Python `str.lower()` on the part-of-speech labels: lower-case
every character (`Char.toLower`; the dump labels are ASCII).  Defined by a
structural list map so the kernel can evaluate it on literals. -/
def py_lower (s : String) : String :=
  String.mk (s.data.map Char.toLower)

/-- Embeds `LexDanNet.map_pos_to_pos_id`: lower-case the label, map the three
known labels to their category QIDs and everything else to `None`. -/
def map_pos_to_pos_id (pos : String) : Option String :=
  let pos_lower := py_lower pos
  if pos_lower = "noun" then some "Q1084"
  else if pos_lower = "adjective" then some "Q34698"
  else if pos_lower = "verb" then some "Q24905"
  else none

/-- Embeds the core of `LexDanNet.create_dataframes_and_export_csv`:
`pd.merge(pos_df, forms_df, on="id", how="inner")` followed by
`joined_df["pos_id"] = joined_df["pos"].apply(self.map_pos_to_pos_id)`.
The pandas inner merge keeps left (pos) order and, per left row, the
matching right (forms) rows in their order. -/
def create_joined_rows (pos_list : List PartOfSpeech) (forms_list : List Form) :
    List IndexRow :=
  pos_list.flatMap (fun p =>
    (forms_list.filter (fun f => f.id = p.id)).map (fun f =>
      { id := p.id, pos := p.pos, form := f.form,
        pos_id := map_pos_to_pos_id p.pos }))

/-- Embeds `pandas.Series.duplicated()` (default `keep="first"`) on a column
given as a list: the flag of an element is `true` exactly when an equal element
occurred earlier; `seen` accumulates the elements already passed. -/
def duplicated (seen : List String) : List String → List Bool
  | [] => []
  | x :: xs => seen.contains x :: duplicated (x :: seen) xs

/-- The `duplicates.sum()` of `check_duplicates`: how many `id` values have
an earlier equal occurrence. -/
def num_of_duplicates (df : List IndexRow) : Nat :=
  (duplicated [] (df.map (fun r => r.id))).countP (fun b => b)

/-- Embeds `LexDanNet.check_duplicates`: pass when no `id` is duplicated,
raise `ValueError` carrying the duplicate count otherwise. -/
def check_duplicates (df : List IndexRow) : Except String Unit :=
  let num := num_of_duplicates df
  if num = 0 then .ok ()
  else .error ("There are " ++ toString num ++ " duplicate IDs in the dataframe.")

/-- Embeds the `Lexeme.glosses` property: the Danish glosses of the senses
that have one (`[sense.glosses.get(language="da") for sense in self.senses
if sense.glosses.get(language="da") is not None]`). -/
def glosses (senses : List Sense) : List String :=
  senses.filterMap (fun s => s.glossDa)

/-- Embeds the lemma lookup of `Lexeme.do_matching`:
`self.df[self.df["form"] == self.lemma]`, the rows whose `form` column
equals the lemma by string equality. -/
def matches_for_lemma (df : List IndexRow) (lem : String) : List IndexRow :=
  df.filter (fun r => r.form = lem)

/-- Embeds `Lexeme.upload_missing_in_statement`: write the `missing in`
`Item` claim `P9660 → Q123739672` with the fixed edit summary. -/
def upload_missing_in_statement (_lex : Lexeme) : List Event :=
  [Event.uploadedItem "P9660" "Q123739672"
    "Added [[Property:P9660]]->[[Q123739672]] using [[Wikidata:Tools/LexDanNet]]"]

/-- Embeds `Lexeme.do_matching`: filter the dataframe by the lemma; when the
match set is empty, upload the missing-in statement.  The `else` branch that
would call `print_details` and `iterate_matches` is commented out in the
source, so a non-empty match set produces no action. -/
def do_matching (lex : Lexeme) (df : List IndexRow) : List Event :=
  let match_set := matches_for_lemma df lex.lemma_da
  if match_set.isEmpty then upload_missing_in_statement lex
  else []

/-- Embeds `Lexeme.handle_no_senses`: with zero senses, print the notice and
set `skip`; returns the `skip` flag and the emitted events. -/
def handle_no_senses (senses : List Sense) : Bool × List Event :=
  if senses.isEmpty then (true, [Event.noSensesSkip])
  else (false, [])

/-- Embeds the `while len(self.senses) != len(self.glosses)` loop of
`make_sure_we_have_danish_glosses_for_all_senses`: each iteration prompts
(`ask_user_to_add_glosses`) and re-fetches the lexeme (`refetch k` is the
sense list after the k-th re-fetch).  `fuel` bounds the unbounded
human-in-the-loop wait; `none` means the gate is still blocking when the
fuel runs out. -/
def gloss_loop (refetch : Nat → List Sense) :
    Nat → Nat → List Sense → Option (List Sense × List Event)
  | 0, _, senses =>
    if senses.length ≠ (glosses senses).length then none
    else some (senses, [])
  | fuel + 1, k, senses =>
    if senses.length ≠ (glosses senses).length then
      match gloss_loop refetch fuel (k + 1) (refetch k) with
      | none => none
      | some (senses', evs) => some (senses', Event.glossPrompt :: evs)
    else some (senses, [])

/-- Embeds `Lexeme.make_sure_we_have_danish_glosses_for_all_senses`: when
`self.senses and not self.glosses or len(self.senses) != len(self.glosses)`
holds, print the missing count and run the re-fetch loop. -/
def make_sure_we_have_danish_glosses_for_all_senses
    (refetch : Nat → List Sense) (fuel : Nat) (senses : List Sense) :
    Option (List Sense × List Event) :=
  if (¬ senses.isEmpty ∧ (glosses senses).isEmpty) ∨
      senses.length ≠ (glosses senses).length then
    gloss_loop refetch fuel 0 senses
  else some (senses, [])

/-- Embeds `Lexeme.match_row` together with the `upload_match` it calls:
skip with a notice when a DanNet id was already uploaded; otherwise compare
the `pos_id` of the row to `str(self.lexical_category_qid)`; on a category match
offer the row to the `match_approved` prompt (`oracle` answers the n-th
prompt) and on approval write the `ExternalID` claim `P6140 → dannet_id`
with the fixed summary and set the guard; on rejection continue; on a
category mismatch log the diagnostic. -/
def match_row (oracle : Nat → Bool) (lex : Lexeme) (st : MState)
    (mrow : IndexRow) : MState × List Event :=
  if st.already_matched_and_uploaded then
    (st, [Event.guardSkip])
  else
    let dannet_pos := mrow.pos
    let dannet_id := mrow.id
    let dannet_pos_qid := mrow.pos_id
    if dannet_pos_qid = some lex.lexical_category_qid then
      if oracle st.prompts then
        ({ st with prompts := st.prompts + 1,
                   already_matched_and_uploaded := true },
         [Event.offered dannet_id,
          Event.uploadedExternalId "P6140" dannet_id
            "Added [[Property:P6140]] using [[Wikidata:Tools/LexDanNet]]"])
      else
        ({ st with prompts := st.prompts + 1 },
         [Event.offered dannet_id, Event.rejected])
    else
      (st, [Event.mismatchDiag lex.lemma_da dannet_pos
        lex.lexical_category_label])

/-- The `for index, match in self.matches.iterrows(): self.match_row(...)`
loop of `iterate_matches`, threading the matcher state. -/
def iterate_rows (oracle : Nat → Bool) (lex : Lexeme) :
    MState → List IndexRow → MState × List Event
  | st, [] => (st, [])
  | st, mrow :: rest =>
    let step := match_row oracle lex st mrow
    let tail := iterate_rows oracle lex step.1 rest
    (tail.1, step.2 ++ tail.2)

/-- Embeds `Lexeme.iterate_matches`: `handle_no_senses`, then unless `skip`
is set, the gloss-completeness gate followed by the row iteration starting
from a fresh guard.  `none` models blocking forever inside the gate. -/
def iterate_matches (oracle : Nat → Bool) (refetch : Nat → List Sense)
    (fuel : Nat) (lex : Lexeme) (match_set : List IndexRow) :
    Option (List Event) :=
  let first := handle_no_senses lex.senses
  if ¬ first.1 then
    match make_sure_we_have_danish_glosses_for_all_senses refetch fuel
        lex.senses with
    | none => none
    | some gate =>
      let rows := iterate_rows oracle lex ⟨false, 0⟩ match_set
      some (first.2 ++ gate.2 ++ rows.2)
  else some first.2

/-- Count of `ExternalID` claim writes (match uploads) in an event list. -/
def countUploads (evs : List Event) : Nat :=
  evs.countP (fun e =>
    match e with
    | Event.uploadedExternalId _ _ _ => true
    | _ => false)

/-- A concrete candidate: lemma `dyr`, lexical category noun (`Q1084`), one
sense with a Danish gloss. -/
def lexDyr : Lexeme :=
  { lemma_da := "dyr", lexical_category_qid := "Q1084",
    lexical_category_label := "noun",
    senses := [{ glossDa := some "levende organisme" }] }

/-- A concrete two-row index sharing the form `dyr`: a noun row and an
adjective row, as in the category-disambiguation example of the spec. -/
def dannetDfDyr : List IndexRow :=
  [{ id := "11010114", pos := "Noun", form := "dyr", pos_id := some "Q1084" },
   { id := "11010115", pos := "Adjective", form := "dyr",
     pos_id := some "Q34698" }]

/-- C2 (counterexample): at the concrete zero-match input, the
part-of-speech extraction returns the empty sequence successfully instead of
raising, while the forms extraction does raise, refuting the claim that both
extractions raise on a zero-match payload. -/
theorem C2_pos_extraction_zero_matches_ok :
    extract_part_of_speech (some []) = Except.ok [] ∧
    extract_forms (some []) = Except.error "No matches found" :=
  ⟨rfl, rfl⟩

/-- C2 (amended): the forms extraction raises `No matches found` on a
zero-match payload and succeeds on any non-empty match list, while the
part-of-speech extraction never raises for a present payload — a zero-match
part-of-speech payload yields the empty sequence. -/
theorem C2_zero_match_behavior :
    (∀ ms : List (String × String),
        extract_part_of_speech (some ms) =
          Except.ok (ms.map (fun m => PartOfSpeech.mk m.2.trim m.1)))
    ∧ extract_forms (some []) = Except.error "No matches found"
    ∧ (∀ ms : List (String × String), ms ≠ [] →
        extract_forms (some ms) =
          Except.ok (ms.map (fun m => Form.mk m.2 m.1))) := by
  refine ⟨fun ms => rfl, rfl, fun ms hms => ?_⟩
  have h1 : ms.isEmpty = false := by
    cases ms with
    | nil => exact absurd rfl hms
    | cons a t => rfl
  have h2 : (ms.map (fun m => Form.mk m.2 m.1)).isEmpty = false := by
    cases ms with
    | nil => exact absurd rfl hms
    | cons a t => rfl
  simp [extract_forms, h1, h2]

/-- C2 witness: applying the amended theorem at the concrete one-record
match list. -/
theorem C2_zero_match_behavior_witness :
    ([("11010114", "dyr")] : List (String × String)) ≠ [] ∧
    extract_forms (some [("11010114", "dyr")]) =
      Except.ok [Form.mk "dyr" "11010114"] :=
  ⟨by decide, C2_zero_match_behavior.2.2 [("11010114", "dyr")] (by decide)⟩

/-- C3: whenever the lemma lookup against the index is empty, `do_matching`
uploads exactly the `missing in` marker claim `P9660 → Q123739672` with the
fixed provenance summary, and nothing further happens for the candidate. -/
theorem C3_empty_lookup_uploads_missing_in_marker (lex : Lexeme)
    (df : List IndexRow)
    (h : (matches_for_lemma df lex.lemma_da).isEmpty = true) :
    do_matching lex df =
      [Event.uploadedItem "P9660" "Q123739672"
        "Added [[Property:P9660]]->[[Q123739672]] using [[Wikidata:Tools/LexDanNet]]"] := by
  simp [do_matching, upload_missing_in_statement, h]

/-- C3 witness: the concrete candidate `dyr` against an index with no row
for its lemma. -/
theorem C3_empty_lookup_uploads_missing_in_marker_witness :
    (matches_for_lemma [] lexDyr.lemma_da).isEmpty = true ∧
    do_matching lexDyr [] =
      [Event.uploadedItem "P9660" "Q123739672"
        "Added [[Property:P9660]]->[[Q123739672]] using [[Wikidata:Tools/LexDanNet]]"] :=
  ⟨rfl, C3_empty_lookup_uploads_missing_in_marker lexDyr [] rfl⟩

/-- C6: a candidate with zero senses yields exactly the skip notice: the
gloss-completeness gate is never entered (no gloss prompt can occur) and no
row of the match set is processed, whatever the oracles, the fuel and the
match set. -/
theorem C6_no_senses_skips (oracle : Nat → Bool) (refetch : Nat → List Sense)
    (fuel : Nat) (lex : Lexeme) (match_set : List IndexRow)
    (h : lex.senses = []) :
    iterate_matches oracle refetch fuel lex match_set =
      some [Event.noSensesSkip] := by
  simp [iterate_matches, handle_no_senses, h]

/-- C6 witness: a concrete zero-sense candidate with a non-empty match
set. -/
theorem C6_no_senses_skips_witness :
    ({ lexDyr with senses := [] } : Lexeme).senses = [] ∧
    iterate_matches (fun _ => true) (fun _ => []) 5
      { lexDyr with senses := [] } dannetDfDyr = some [Event.noSensesSkip] :=
  ⟨rfl, C6_no_senses_skips (fun _ => true) (fun _ => []) 5
    { lexDyr with senses := [] } dannetDfDyr rfl⟩

/-- C7: the part-of-speech mapping depends only on the lower-cased label
(case-insensitive); every casing of `noun`, `adjective` and `verb` maps to
`Q1084`, `Q34698` and `Q24905` respectively; any other label maps to `none`;
and a row whose `pos_id` is `none` can never produce a category match in
`match_row` — it always yields the mismatch diagnostic and no upload. -/
theorem C7_pos_mapping_case_insensitivity :
    (∀ s t : String, py_lower s = py_lower t →
        map_pos_to_pos_id s = map_pos_to_pos_id t)
    ∧ (∀ s : String, py_lower s = "noun" →
        map_pos_to_pos_id s = some "Q1084")
    ∧ (∀ s : String, py_lower s = "adjective" →
        map_pos_to_pos_id s = some "Q34698")
    ∧ (∀ s : String, py_lower s = "verb" →
        map_pos_to_pos_id s = some "Q24905")
    ∧ (∀ s : String, py_lower s ≠ "noun" → py_lower s ≠ "adjective" →
        py_lower s ≠ "verb" → map_pos_to_pos_id s = none)
    ∧ (∀ (oracle : Nat → Bool) (lex : Lexeme) (st : MState) (mrow : IndexRow),
        st.already_matched_and_uploaded = false → mrow.pos_id = none →
        match_row oracle lex st mrow =
          (st, [Event.mismatchDiag lex.lemma_da mrow.pos
            lex.lexical_category_label])) := by
  refine ⟨?_, ?_, ?_, ?_, ?_, ?_⟩
  · intro s t h
    simp only [map_pos_to_pos_id, h]
  · intro s h
    simp [map_pos_to_pos_id, h]
  · intro s h
    simp [map_pos_to_pos_id, h]
  · intro s h
    simp [map_pos_to_pos_id, h]
  · intro s h1 h2 h3
    simp [map_pos_to_pos_id, h1, h2, h3]
  · intro oracle lex st mrow h1 h2
    simp [match_row, h1, h2]

/-- C7 witness: the mapping at concrete casings and an unmapped label, and
`match_row` at a concrete row carrying a `none` category. -/
theorem C7_pos_mapping_case_insensitivity_witness :
    map_pos_to_pos_id "NOUN" = some "Q1084"
    ∧ map_pos_to_pos_id "Adjective" = some "Q34698"
    ∧ map_pos_to_pos_id "vErB" = some "Q24905"
    ∧ map_pos_to_pos_id "Pronoun" = none
    ∧ match_row (fun _ => true) lexDyr { already_matched_and_uploaded := false, prompts := 0 }
        { id := "9", pos := "Pronoun", form := "dyr", pos_id := none } =
      ({ already_matched_and_uploaded := false, prompts := 0 },
        [Event.mismatchDiag "dyr" "Pronoun" "noun"]) :=
  ⟨C7_pos_mapping_case_insensitivity.2.1 "NOUN" (by decide),
   C7_pos_mapping_case_insensitivity.2.2.1 "Adjective" (by decide),
   C7_pos_mapping_case_insensitivity.2.2.2.1 "vErB" (by decide),
   C7_pos_mapping_case_insensitivity.2.2.2.2.1 "Pronoun"
     (by decide) (by decide) (by decide),
   C7_pos_mapping_case_insensitivity.2.2.2.2.2 (fun _ => true) lexDyr
     { already_matched_and_uploaded := false, prompts := 0 }
     { id := "9", pos := "Pronoun", form := "dyr", pos_id := none } rfl rfl⟩

/-- C8: the lemma lookup returns exactly the index rows whose `form` equals
the lemma by string equality, and a lemma differing only in case from an
index form yields no match (concrete instance `Hund` vs `hund`). -/
theorem C8_lemma_lookup_exact :
    (∀ (df : List IndexRow) (lem : String) (r : IndexRow),
        r ∈ matches_for_lemma df lem ↔ r ∈ df ∧ r.form = lem)
    ∧ matches_for_lemma
        [{ id := "1", pos := "Noun", form := "Hund", pos_id := some "Q1084" }]
        "hund" = [] := by
  constructor
  · intro df lem r
    simp [matches_for_lemma, List.mem_filter]
  · decide

/-- C10: the glosses list is the senses list filtered to those carrying a
Danish gloss, so its length never exceeds the sense count; the counts are
equal exactly when every sense has a Danish gloss; and the gate loop
condition `len(senses) != len(glosses)` is equivalent to the glosses being
strictly fewer than the senses. -/
theorem C10_gloss_counts (senses_list : List Sense) :
    (glosses senses_list).length ≤ senses_list.length
    ∧ ((glosses senses_list).length = senses_list.length ↔
        ∀ s ∈ senses_list, s.glossDa.isSome)
    ∧ (senses_list.length ≠ (glosses senses_list).length ↔
        (glosses senses_list).length < senses_list.length) := by
  have hle : ∀ t : List Sense, (glosses t).length ≤ t.length := by
    intro t
    exact List.length_filterMap_le _ _
  have heq : (glosses senses_list).length = senses_list.length ↔
      ∀ s ∈ senses_list, s.glossDa.isSome := by
    induction senses_list with
    | nil => simp [glosses]
    | cons s t ih =>
      cases hs : s.glossDa with
      | none =>
        simp only [glosses, List.filterMap_cons, hs, List.length_cons,
          List.forall_mem_cons]
        have hlt := hle t
        simp only [glosses] at hlt
        constructor
        · intro h
          exact absurd h (by omega)
        · intro h
          simp at h
      | some g =>
        have ih2 : (List.filterMap (fun s => s.glossDa) t).length = t.length ↔
            ∀ x ∈ t, x.glossDa.isSome = true := by
          simp only [glosses] at ih
          exact ih
        simp only [glosses, List.filterMap_cons, hs, List.length_cons,
          List.forall_mem_cons]
        constructor
        · intro h
          exact ⟨by simp [hs], ih2.mp (by omega)⟩
        · intro h
          have := ih2.mpr h.2
          omega
  refine ⟨hle senses_list, heq, ?_⟩
  have h1 := hle senses_list
  omega

/-- Duplicate-flag counting is zero exactly when the scanned list is
duplicate-free and disjoint from the already-seen prefix. -/
theorem duplicated_countP_eq_zero (l : List String) : ∀ seen : List String,
    (duplicated seen l).countP (fun b => b) = 0 ↔
      (∀ x ∈ l, x ∉ seen) ∧ l.Nodup := by
  induction l with
  | nil => intro seen; simp [duplicated]
  | cons x xs ih =>
    intro seen
    rw [duplicated, List.countP_cons]
    have hadd : ∀ n m : Nat, n + m = 0 ↔ n = 0 ∧ m = 0 := by omega
    rw [hadd, ih (x :: seen)]
    constructor
    · rintro ⟨⟨hdisj, hnd⟩, hflag⟩
      have hxseen : x ∉ seen := by
        intro hx
        have hc : seen.contains x = true := List.elem_iff.mpr hx
        rw [hc] at hflag
        simp at hflag
      refine ⟨?_, ?_⟩
      · intro y hy
        rcases List.mem_cons.mp hy with rfl | hy2
        · exact hxseen
        · intro hcon
          exact hdisj y hy2 (List.mem_cons.mpr (Or.inr hcon))
      · rw [List.nodup_cons]
        refine ⟨?_, hnd⟩
        intro hxxs
        exact hdisj x hxxs (List.mem_cons_self x seen)
    · rintro ⟨hdisj2, hnd2⟩
      have hxseen : x ∉ seen := hdisj2 x (List.mem_cons_self x xs)
      have hxs : x ∉ xs := (List.nodup_cons.mp hnd2).1
      refine ⟨⟨?_, (List.nodup_cons.mp hnd2).2⟩, ?_⟩
      · intro y hy hmem
        rcases List.mem_cons.mp hmem with rfl | hys
        · exact hxs hy
        · exact hdisj2 y (List.mem_cons.mpr (Or.inr hy)) hys
      · have hcf : seen.contains x = false := by
          cases hcs : seen.contains x
          · rfl
          · exact absurd (List.elem_iff.mp hcs) hxseen
        rw [hcf]
        simp

/-- C4: the duplicate-identifier check passes exactly when the `id` column
is duplicate-free, and with any duplicated id it aborts with the error
carrying the duplicate count; hence an index that passes the check never
contains two records with the same id. -/
theorem C4_duplicate_id_check (df : List IndexRow) :
    (check_duplicates df = Except.ok () ↔ (df.map (fun r => r.id)).Nodup)
    ∧ (¬ (df.map (fun r => r.id)).Nodup →
        check_duplicates df =
          Except.error ("There are " ++ toString (num_of_duplicates df) ++
            " duplicate IDs in the dataframe.")) := by
  have key : num_of_duplicates df = 0 ↔ (df.map (fun r => r.id)).Nodup := by
    unfold num_of_duplicates
    rw [duplicated_countP_eq_zero]
    simp
  constructor
  · constructor
    · intro hok
      by_contra hnd
      have hne : num_of_duplicates df ≠ 0 := fun h0 => hnd (key.mp h0)
      simp [check_duplicates, hne] at hok
    · intro hnd
      simp [check_duplicates, key.mpr hnd]
  · intro hnd
    have hne : num_of_duplicates df ≠ 0 := fun h0 => hnd (key.mp h0)
    simp [check_duplicates, hne]

/-- C4 witness: a concrete two-row index sharing an id fails the check with
duplicate count 1. -/
theorem C4_duplicate_id_check_witness :
    ¬ (([{ id := "1", pos := "Noun", form := "hund", pos_id := some "Q1084" },
         { id := "1", pos := "Verb", form := "hunde", pos_id := some "Q24905" }] :
        List IndexRow).map (fun r => r.id)).Nodup
    ∧ check_duplicates
        [{ id := "1", pos := "Noun", form := "hund", pos_id := some "Q1084" },
         { id := "1", pos := "Verb", form := "hunde", pos_id := some "Q24905" }] =
      Except.error ("There are " ++
        toString (num_of_duplicates
          [{ id := "1", pos := "Noun", form := "hund", pos_id := some "Q1084" },
           { id := "1", pos := "Verb", form := "hunde", pos_id := some "Q24905" }]) ++
        " duplicate IDs in the dataframe.") :=
  ⟨by decide,
   (C4_duplicate_id_check
     [{ id := "1", pos := "Noun", form := "hund", pos_id := some "Q1084" },
      { id := "1", pos := "Verb", form := "hunde", pos_id := some "Q24905" }]).2
     (by decide)⟩

/-- With the upload guard already set, every remaining row is skipped with
the guard notice and the state is unchanged. -/
theorem iterate_rows_guard_set (oracle : Nat → Bool) (lex : Lexeme)
    (st : MState) (rows : List IndexRow)
    (h : st.already_matched_and_uploaded = true) :
    iterate_rows oracle lex st rows =
      (st, List.replicate rows.length Event.guardSkip) := by
  induction rows with
  | nil => simp [iterate_rows]
  | cons r rs ih =>
    simp [iterate_rows, match_row, h, ih, List.replicate_succ]

/-- Upload counting distributes over event-list concatenation. -/
theorem countUploads_append (a b : List Event) :
    countUploads (a ++ b) = countUploads a + countUploads b := by
  simp [countUploads, List.countP_append]

/-- Guard-skip notices contain no uploads. -/
theorem countUploads_replicate_guardSkip (n : Nat) :
    countUploads (List.replicate n Event.guardSkip) = 0 := by
  induction n with
  | zero => rfl
  | succ n ih =>
    simp only [List.replicate_succ, countUploads, List.countP_cons] at *
    simp [ih]

/-- C5: row iteration started with a clear guard produces at most one match
upload, however many rows match and whatever the approver answers; a
rejected prompt leaves the guard unchanged (so later rows may still be
offered and uploaded); once the guard is set every subsequent row is skipped
with the guard notice and no upload; and in the concrete reject-then-approve
run the second row is still offered and uploaded after the first was
rejected. -/
theorem C5_upload_guard :
    (∀ (oracle : Nat → Bool) (lex : Lexeme) (st : MState)
        (rows : List IndexRow), st.already_matched_and_uploaded = false →
        countUploads (iterate_rows oracle lex st rows).2 ≤ 1)
    ∧ (∀ (oracle : Nat → Bool) (lex : Lexeme) (st : MState) (mrow : IndexRow),
        oracle st.prompts = false →
        (match_row oracle lex st mrow).1.already_matched_and_uploaded =
          st.already_matched_and_uploaded)
    ∧ (∀ (oracle : Nat → Bool) (lex : Lexeme) (st : MState) (mrow : IndexRow),
        st.already_matched_and_uploaded = true →
        match_row oracle lex st mrow = (st, [Event.guardSkip]))
    ∧ (iterate_rows (fun n => decide (n = 1)) lexDyr ⟨false, 0⟩
        [{ id := "10", pos := "Noun", form := "dyr", pos_id := some "Q1084" },
         { id := "20", pos := "Noun", form := "dyr", pos_id := some "Q1084" }]).2 =
      [Event.offered "10", Event.rejected, Event.offered "20",
       Event.uploadedExternalId "P6140" "20"
         "Added [[Property:P6140]] using [[Wikidata:Tools/LexDanNet]]"] := by
  refine ⟨?_, ?_, ?_, by rfl⟩
  · intro oracle lex st rows
    revert st
    induction rows with
    | nil =>
      intro st h
      simp [iterate_rows, countUploads]
    | cons r rs ih =>
      intro st h
      simp only [iterate_rows, match_row, h, Bool.false_eq_true, if_false]
      by_cases hcat : r.pos_id = some lex.lexical_category_qid
      · by_cases happ : oracle st.prompts = true
        · simp only [hcat, if_true, happ]
          rw [iterate_rows_guard_set _ _ _ _ rfl, countUploads_append,
            countUploads_replicate_guardSkip]
          simp [countUploads, List.countP_cons]
        · have happf : oracle st.prompts = false := by
            cases ho : oracle st.prompts
            · rfl
            · exact absurd ho happ
          simp only [hcat, if_true, happf, Bool.false_eq_true, if_false]
          rw [countUploads_append]
          have htail := ih ⟨false, st.prompts + 1⟩ rfl
          have hpre : countUploads [Event.offered r.id, Event.rejected] = 0 := rfl
          omega
      · simp only [hcat, if_false]
        rw [countUploads_append]
        have htail := ih st h
        have hpre :
            countUploads [Event.mismatchDiag lex.lemma_da r.pos
              lex.lexical_category_label] = 0 := rfl
        omega
  · intro oracle lex st mrow h
    by_cases hg : st.already_matched_and_uploaded = true
    · simp [match_row, hg]
    · have hgf : st.already_matched_and_uploaded = false := by
        cases hb : st.already_matched_and_uploaded
        · rfl
        · exact absurd hb hg
      by_cases hcat : mrow.pos_id = some lex.lexical_category_qid
      · simp [match_row, hgf, hcat, h]
      · simp [match_row, hgf, hcat]
  · intro oracle lex st mrow h
    simp [match_row, h]

/-- C5 witness: the guard bound, the reject-preserves-guard property and the
guard-skip behavior at concrete inputs. -/
theorem C5_upload_guard_witness :
    countUploads (iterate_rows (fun _ => true) lexDyr ⟨false, 0⟩ dannetDfDyr).2 ≤ 1
    ∧ (match_row (fun _ => false) lexDyr ⟨false, 0⟩
        { id := "10", pos := "Noun", form := "dyr",
          pos_id := some "Q1084" }).1.already_matched_and_uploaded =
      (⟨false, 0⟩ : MState).already_matched_and_uploaded
    ∧ match_row (fun _ => true) lexDyr ⟨true, 3⟩
        { id := "10", pos := "Noun", form := "dyr", pos_id := some "Q1084" } =
      (⟨true, 3⟩, [Event.guardSkip]) :=
  ⟨C5_upload_guard.1 (fun _ => true) lexDyr ⟨false, 0⟩ dannetDfDyr rfl,
   C5_upload_guard.2.1 (fun _ => false) lexDyr ⟨false, 0⟩
     { id := "10", pos := "Noun", form := "dyr", pos_id := some "Q1084" } rfl,
   C5_upload_guard.2.2.1 (fun _ => true) lexDyr ⟨true, 3⟩
     { id := "10", pos := "Noun", form := "dyr", pos_id := some "Q1084" } rfl⟩

/-- Characterization of membership in the joined index: a row arises from a
pos entry and a form entry sharing its id. -/
theorem mem_create_joined_rows (pos_list : List PartOfSpeech)
    (forms_list : List Form) (r : IndexRow) :
    r ∈ create_joined_rows pos_list forms_list ↔
      ∃ p ∈ pos_list, ∃ f ∈ forms_list, f.id = p.id ∧
        r = { id := p.id, pos := p.pos, form := f.form,
              pos_id := map_pos_to_pos_id p.pos } := by
  simp only [create_joined_rows, List.mem_flatMap, List.mem_map,
    List.mem_filter, decide_eq_true_eq]
  constructor
  · rintro ⟨p, hp, f, ⟨hf, hfid⟩, rfl⟩
    exact ⟨p, hp, f, hf, hfid, rfl⟩
  · rintro ⟨p, hp, f, hf, hfid, rfl⟩
    exact ⟨p, hp, f, ⟨hf, hfid⟩, rfl⟩

/-- C9: the join is inner on `id`: the `id` of every joined row occurs among the
pos entries and among the form entries, and an entry whose id occurs in only
one of the two sources contributes no joined row with its id. -/
theorem C9_inner_join_ids (pos_list : List PartOfSpeech)
    (forms_list : List Form) :
    (∀ r ∈ create_joined_rows pos_list forms_list,
        (∃ p ∈ pos_list, p.id = r.id) ∧ ∃ f ∈ forms_list, f.id = r.id)
    ∧ (∀ p ∈ pos_list, (∀ f ∈ forms_list, f.id ≠ p.id) →
        ∀ r ∈ create_joined_rows pos_list forms_list, r.id ≠ p.id)
    ∧ (∀ f ∈ forms_list, (∀ p ∈ pos_list, p.id ≠ f.id) →
        ∀ r ∈ create_joined_rows pos_list forms_list, r.id ≠ f.id) := by
  refine ⟨?_, ?_, ?_⟩
  · intro r hr
    rw [mem_create_joined_rows] at hr
    obtain ⟨p, hp, f, hf, hid, rfl⟩ := hr
    exact ⟨⟨p, hp, rfl⟩, ⟨f, hf, hid⟩⟩
  · intro p hp hno r hr hrid
    rw [mem_create_joined_rows] at hr
    obtain ⟨q, hq, f, hf, hid, rfl⟩ := hr
    exact hno f hf (hid.trans hrid)
  · intro f hf hno r hr hrid
    rw [mem_create_joined_rows] at hr
    obtain ⟨q, hq, g, hg, hid, rfl⟩ := hr
    exact hno q hq hrid

/-- C9 witness: with pos entries `1` and `2` but only form id `1`, the
joined row cannot carry id `2`. -/
theorem C9_inner_join_ids_witness :
    ({ id := "1", pos := "Noun", form := "hund",
       pos_id := some "Q1084" } : IndexRow).id ≠ "2" :=
  (C9_inner_join_ids [⟨"Noun", "1"⟩, ⟨"Verb", "2"⟩] [⟨"hund", "1"⟩]).2.1
    ⟨"Verb", "2"⟩ (by decide) (by decide)
    { id := "1", pos := "Noun", form := "hund", pos_id := some "Q1084" }
    (by decide)

/-- C1 (code evaluation): for the concrete noun candidate `dyr` whose lemma
lookup returns two rows, the lookup is non-empty, yet `do_matching` performs
no action at all — the row iteration call is commented out in the source —
while the never-invoked `iterate_matches` would offer exactly the
category-matching row to the approver and would skip the adjective row with
the category-mismatch diagnostic. -/
theorem C1_nonempty_match_set_never_iterated :
    (matches_for_lemma dannetDfDyr lexDyr.lemma_da).isEmpty = false
    ∧ do_matching lexDyr dannetDfDyr = []
    ∧ iterate_matches (fun _ => false) (fun _ => []) 0 lexDyr
        (matches_for_lemma dannetDfDyr lexDyr.lemma_da) =
      some [Event.offered "11010114", Event.rejected,
        Event.mismatchDiag "dyr" "Adjective" "noun"] :=
  ⟨by decide, by decide, by decide⟩

/-- C8 witness: the exact-match characterization applied to the concrete
noun row of the `dyr` index. -/
theorem C8_lemma_lookup_exact_witness :
    ({ id := "11010114", pos := "Noun", form := "dyr",
       pos_id := some "Q1084" } : IndexRow) ∈ matches_for_lemma dannetDfDyr "dyr" ↔
      ({ id := "11010114", pos := "Noun", form := "dyr",
         pos_id := some "Q1084" } : IndexRow) ∈ dannetDfDyr ∧
      ({ id := "11010114", pos := "Noun", form := "dyr",
         pos_id := some "Q1084" } : IndexRow).form = "dyr" :=
  C8_lemma_lookup_exact.1 dannetDfDyr "dyr"
    { id := "11010114", pos := "Noun", form := "dyr", pos_id := some "Q1084" }

/-- C10 witness: the gloss-count bounds applied to a concrete two-sense list
with one missing gloss. -/
theorem C10_gloss_counts_witness :
    (glosses [{ glossDa := some "g" }, { glossDa := none }]).length ≤
      ([{ glossDa := some "g" }, { glossDa := none }] : List Sense).length :=
  (C10_gloss_counts [{ glossDa := some "g" }, { glossDa := none }]).1
